import Mathlib

/-!
Verification of the company-analysis pipeline (analyst.py, deal_flow_app.py).

Shallow embedding: every external collaborator (web search, scraper,
generation model, yfinance, clock) is modelled by an explicit input holding
the value it returns for the run; the repository's own sequencing, string
building and rendering logic is translated into pure Lean functions.
Numeric market fields are modelled by rationals; Python string slicing and
truthiness are modelled char-exactly.
-/

/-- Python `s[:n]` on a string (slicing by code points). -/
def pySlice (s : String) (n : Nat) : String := String.mk (s.data.take n)

/-- Python `s.strip()` (whitespace at both ends). -/
def pyStrip (s : String) : String :=
  String.mk (((s.data.dropWhile Char.isWhitespace).reverse.dropWhile Char.isWhitespace).reverse)

/-- Python `s.upper()`. -/
def pyUpper (s : String) : String := String.mk (s.data.map Char.toUpper)

/-- One step of Python `str.title()`: the boolean says whether the previous
character was alphabetic. -/
def pyTitleAux : Bool → List Char → List Char
  | _, [] => []
  | prevAlpha, c :: rest =>
    (if c.isAlpha then (if prevAlpha then c.toLower else c.toUpper) else c) ::
      pyTitleAux c.isAlpha rest

/-- Python `s.title()`. -/
def pyTitle (s : String) : String := String.mk (pyTitleAux false s.data)

/-- Python truthiness of an optional string (`None` and `""` are falsy). -/
def optTruthy : Option String → Bool
  | some s => s ≠ ""
  | none => false

/-- Python truthiness of an optional number (`None` and `0` are falsy). -/
def qTruthy : Option ℚ → Bool
  | some v => v ≠ 0
  | none => false

/-- Python truthiness of an optional natural (`None` and `0` are falsy). -/
def natTruthy : Option Nat → Bool
  | some v => v ≠ 0
  | none => false

/-- Python `f"{x}"` on an optional string: a dict value of `None` prints
as `None`, not as the `.get` default (the key is always present). -/
def showOptStr : Option String → String
  | some s => s
  | none => "None"

/-- The fixed typographic-substitution table of `sanitize_text`
(`analyst.py` 100-109, `deal_flow_app.py` 319-328), in source order. -/
def replacements : List (Char × List Char) :=
  [('•', ['-']), ('–', ['-']), ('—', ['-']),
   ('‘', ['\x27']), ('’', ['\x27']),
   ('“', ['"']), ('”', ['"']),
   ('…', ['.', '.', '.'])]

/-- Python `result.replace(unicode_char, replacement)` for a one-character
pattern, modelled char-wise. -/
def replaceChar (p : Char) (r : List Char) (l : List Char) : List Char :=
  l.flatMap fun c => if c = p then r else [c]

/-- The `for unicode_char, replacement in replacements.items()` loop. -/
def applyReplacements (l : List Char) : List Char :=
  replacements.foldl (fun acc pr => replaceChar pr.1 pr.2 acc) l

/-- Python `.encode('latin-1', errors='replace').decode('latin-1')`:
characters above code point 255 become `?`. -/
def latin1Encode (l : List Char) : List Char :=
  l.map fun c => if c.toNat < 256 then c else '?'

/-- Model of `sanitize_text` (`analyst.py` 93-118, `deal_flow_app.py` 314-335). -/
def sanitize_text (s : String) : String :=
  if s = "" then "" else String.mk (latin1Encode (applyReplacements s.data))

/-- Per-character specification of `sanitize_text`, to be proved equal to
the source translation above. -/
def sanitizeChar (c : Char) : List Char :=
  if c = '•' then ['-']
  else if c = '–' then ['-']
  else if c = '—' then ['-']
  else if c = '‘' then ['\x27']
  else if c = '’' then ['\x27']
  else if c = '“' then ['"']
  else if c = '”' then ['"']
  else if c = '…' then ['.', '.', '.']
  else if c.toNat < 256 then [c]
  else ['?']

/-- The eight typographic characters of the substitution table. -/
def typographicChars : List Char :=
  ['•', '–', '—', '‘', '’', '“', '”', '…']

lemma replaceChar_append (p : Char) (r : List Char) (a b : List Char) :
    replaceChar p r (a ++ b) = replaceChar p r a ++ replaceChar p r b := by
  simp [replaceChar]

lemma applyReplacements_append (a b : List Char) :
    applyReplacements (a ++ b) = applyReplacements a ++ applyReplacements b := by
  simp [applyReplacements, replacements, List.foldl, replaceChar_append]

lemma applyReplacements_cons (c : Char) (l : List Char) :
    applyReplacements (c :: l) = applyReplacements [c] ++ applyReplacements l := by
  have h := applyReplacements_append [c] l
  simpa using h

lemma latin1Encode_append (a b : List Char) :
    latin1Encode (a ++ b) = latin1Encode a ++ latin1Encode b := by
  simp [latin1Encode]

lemma sanitize_single (c : Char) :
    latin1Encode (applyReplacements [c]) = sanitizeChar c := by
  by_cases h1 : c = '•'
  · subst h1; decide
  by_cases h2 : c = '–'
  · subst h2; decide
  by_cases h3 : c = '—'
  · subst h3; decide
  by_cases h4 : c = '‘'
  · subst h4; decide
  by_cases h5 : c = '’'
  · subst h5; decide
  by_cases h6 : c = '“'
  · subst h6; decide
  by_cases h7 : c = '”'
  · subst h7; decide
  by_cases h8 : c = '…'
  · subst h8; decide
  simp [applyReplacements, replacements, List.foldl, replaceChar, latin1Encode,
    sanitizeChar, h1, h2, h3, h4, h5, h6, h7, h8]
  split <;> rfl

lemma sanitizeCore_eq (l : List Char) :
    latin1Encode (applyReplacements l) = l.flatMap sanitizeChar := by
  induction l with
  | nil => decide
  | cons c l ih =>
    rw [applyReplacements_cons, latin1Encode_append, sanitize_single, ih,
      List.flatMap_cons]

lemma sanitize_data (s : String) :
    (sanitize_text s).data = s.data.flatMap sanitizeChar := by
  by_cases h : s = ""
  · subst h; decide
  · simp [sanitize_text, h, sanitizeCore_eq]

/-- One entry of the Tavily search-result list (`title`, `url`, `content`
keys, each possibly missing). -/
structure SearchResult where
  title : Option String := none
  url : Option String := none
  content : Option String := none
deriving DecidableEq

/-- The `for i, result in enumerate(results[:k], 1)` summary loop shared by
both `get_company_info` variants; `cap` is the snippet cap (300 or 400) and
`label` is `"Result "` or `"News "`. -/
def summaryAux (cap : Nat) (label : String) : Nat → List SearchResult → String
  | _, [] => ""
  | i, r :: rs =>
    label ++ toString i ++ ":\n" ++
    "Title: " ++ (r.title.getD ("N/A")) ++ "\n" ++
    "URL: " ++ (r.url.getD ("N/A")) ++ "\n" ++
    "Content: " ++ pySlice (r.content.getD ("N/A")) cap ++ "...\n\n" ++
    summaryAux cap label (i + 1) rs

/-- Model of `get_company_info` (`analyst.py` 25-48): the search collaborator's
result list is the input; returns the top URL (None on zero results)
and the context summary. -/
def get_company_info (results : List SearchResult) : Option String × String :=
  match results with
  | [] => (none, "No search results found")
  | r :: _ =>
    (some (r.url.getD ("")), summaryAux 300 ("Result ") 1 (results.take 3))

/-- Model of `get_company_info` (`deal_flow_app.py` 169-208): adds the news search
(issued only when the website search returned results) and caps snippets
at 400. -/
def get_company_info_df (results newsResults : List SearchResult) :
    Option String × String :=
  match results with
  | [] => (none, "No search results found")
  | r :: _ =>
    (some (r.url.getD ("")),
     "=== COMPANY WEBSITE SEARCH ===\n" ++
       summaryAux 400 ("Result ") 1 (results.take 3) ++
       "\n=== RECENT NEWS & MARKET CONTEXT ===\n" ++
       summaryAux 400 ("News ") 1 (newsResults.take 5))

/-- Model of `analyze_website` (`analyst.py` 52-62, `deal_flow_app.py` 211-221):
the scrape collaborator either returns the markdown rendering or raises
(`Except.error`); a failure is caught and mapped to the empty string,
success is truncated to the first 5000 characters. -/
def analyze_website (outcome : Except String String) : String :=
  match outcome with
  | .ok md => pySlice md 5000
  | .error _ => ""

/-- Model of `get_ticker_symbol` (`deal_flow_app.py` 30-61): the generation
collaborator's raw reply is the input; it is stripped and upper-cased, and
a literal `PRIVATE` maps to no ticker. -/
def get_ticker_symbol (response : String) : Option String :=
  let result := pyUpper (pyStrip response)
  if result = "PRIVATE" then none else some result

/-- Left-pad a numeral string with zeros to width `w`. -/
def padZeros (w : Nat) (s : String) : String :=
  String.mk (List.replicate (w - s.data.length) '0') ++ s

/-- Model of Python `f"{v:.Nf}"` fixed-point formatting on a rational
(round to `decimals` places; ties are not exercised by any theorem). -/
def fmtFixed (decimals : Nat) (q : ℚ) : String :=
  let n : Int := round (q * (10 : ℚ) ^ decimals)
  let sign := if n < 0 then "-" else ""
  let m := n.natAbs
  if decimals = 0 then sign ++ toString (m : Nat)
  else sign ++ toString (m / 10 ^ decimals) ++ "." ++
    padZeros decimals (toString (m % 10 ^ decimals))

/-- Group a reversed digit list in threes (for thousands separators). -/
def chunk3 : List Char → List (List Char)
  | [] => []
  | [a] => [[a]]
  | [a, b] => [[a, b]]
  | a :: b :: c :: rest => [a, b, c] :: chunk3 rest

/-- Python `f"{n:,}"` on a natural number. -/
def commaNat (n : Nat) : String :=
  String.mk ((List.intercalate [','] (chunk3 (toString n).data.reverse)).reverse)

/-- Model of Python `f"{v:,.0f}"` on a rational. -/
def fmtComma0 (q : ℚ) : String :=
  let n : Int := round q
  (if n < 0 then "-" else "") ++ commaNat n.natAbs

/-- Model of `format_market_cap` (`deal_flow_app.py` 146-157). -/
def format_market_cap (value : Option ℚ) : String :=
  match value with
  | none => "N/A"
  | some v =>
    if v ≥ 1000000000000 then "$" ++ fmtFixed 2 (v / 1000000000000) ++ "T"
    else if v ≥ 1000000000 then "$" ++ fmtFixed 2 (v / 1000000000) ++ "B"
    else if v ≥ 1000000 then "$" ++ fmtFixed 2 (v / 1000000) ++ "M"
    else "$" ++ fmtComma0 v

/-- Model of Python comma-grouped fixed-point formatting, the
thousands-separated variant of `fmtFixed`. -/
def fmtCommaFixed (decimals : Nat) (q : ℚ) : String :=
  let n : Int := round (q * (10 : ℚ) ^ decimals)
  let sign := if n < 0 then "-" else ""
  let m := n.natAbs
  if decimals = 0 then sign ++ commaNat m
  else sign ++ commaNat (m / 10 ^ decimals) ++ "." ++
    padZeros decimals (toString (m % 10 ^ decimals))

/-- Model of `format_number` (`deal_flow_app.py` 160-164); `pre`/`suf` are the
`prefix`/`suffix` keyword arguments, and the format spec is the
comma-grouped fixed-point one of the source f-string. -/
def format_number (value : Option ℚ) (pre suf : String) (decimals : Nat) : String :=
  match value with
  | none => "N/A"
  | some v => pre ++ fmtCommaFixed decimals v ++ suf

/-- The fields of the yfinance `stock.info` map read by
`fetch_stock_data`, plus the one-year `Close` history (both calls sit in
the same `try` block, so one `Except` covers them jointly). -/
structure YfInfo where
  currentPrice : Option ℚ := none
  regularMarketPrice : Option ℚ := none
  marketCap : Option ℚ := none
  trailingPE : Option ℚ := none
  forwardPE : Option ℚ := none
  fiftyTwoWeekHigh : Option ℚ := none
  fiftyTwoWeekLow : Option ℚ := none
  sector : Option String := none
  industry : Option String := none
  fullTimeEmployees : Option Nat := none
  trailingAnnualDividendYield : Option ℚ := none
  dividendYield : Option ℚ := none
  beta : Option ℚ := none
  totalRevenue : Option ℚ := none
  profitMargins : Option ℚ := none
  regularMarketTime : Option Nat := none
  exchange : Option String := none
  currency : Option String := none
  histCloses : List ℚ := []

/-- The dict returned by `fetch_stock_data` (`deal_flow_app.py` 120-140). -/
structure StockData where
  current_price : Option ℚ
  market_cap : Option ℚ
  year_return : Option ℚ
  trailing_pe : Option ℚ
  forward_pe : Option ℚ
  fifty_two_week_high : Option ℚ
  fifty_two_week_low : Option ℚ
  sector : Option String
  industry : Option String
  employees : Option Nat
  dividend_yield : Option ℚ
  beta : Option ℚ
  revenue : Option ℚ
  profit_margin : Option ℚ
  ticker : String
  last_trade_time : Option String
  exchange : String
  currency : String
  currency_symbol : String
deriving DecidableEq

/-- The exchange-code lookup table (`deal_flow_app.py` 89-104). -/
def exchange_names : List (String × String) :=
  [("NMS", "NASDAQ"), ("NYQ", "NYSE"), ("NGM", "NASDAQ"),
   ("TOR", "TSX"), ("TSX", "TSX"), ("VAN", "TSX-V"),
   ("LSE", "LSE"), ("LON", "LSE"), ("FRA", "Frankfurt"),
   ("PAR", "Euronext Paris"), ("HKG", "HKEX"), ("JPX", "Tokyo"),
   ("TYO", "Tokyo"), ("ASX", "ASX")]

/-- The currency-symbol lookup table (`deal_flow_app.py` 108-117). -/
def currency_symbols : List (String × String) :=
  [("USD", "$"), ("CAD", "$"), ("GBP", "£"), ("EUR", "€"),
   ("JPY", "¥"), ("HKD", "HK$"), ("AUD", "A$"), ("CHF", "CHF ")]

/-- Python `table.get(key, dflt)` on the hardcoded lookup dicts. -/
def tableGet (tbl : List (String × String)) (k dflt : String) : String :=
  match tbl.find? (fun pr => pr.1 == k) with
  | some pr => pr.2
  | none => dflt

/-- Python `a or b` on optional numbers (`None` and `0` are falsy). -/
def pyOrQ (a b : Option ℚ) : Option ℚ :=
  match a with
  | some v => if v = 0 then b else some v
  | none => b

/-- Model of `fetch_stock_data` (`deal_flow_app.py` 64-143): `fmtTime` models the
`datetime.fromtimestamp(...).strftime(...)` formatting of the last trade
timestamp; the Except input models the yfinance calls, whose exception is
caught and mapped to `None` (after an `st.warning`). -/
def fetch_stock_data (fmtTime : Nat → String) (ticker : String)
    (outcome : Except String YfInfo) : Option StockData :=
  match outcome with
  | .error _ => none
  | .ok info =>
    let year_return : Option ℚ :=
      if info.histCloses.length ≥ 2 then
        match info.histCloses.head?, info.histCloses.getLast? with
        | some start_price, some end_price =>
          some ((end_price - start_price) / start_price * 100)
        | _, _ => none
      else none
    let last_trade_time : Option String :=
      if natTruthy info.regularMarketTime then
        some (fmtTime (info.regularMarketTime.getD 0))
      else none
    let exchange := info.exchange.getD ("")
    let currency := info.currency.getD ("USD")
    some
      { current_price := pyOrQ info.currentPrice info.regularMarketPrice
        market_cap := info.marketCap
        year_return := year_return
        trailing_pe := info.trailingPE
        forward_pe := info.forwardPE
        fifty_two_week_high := info.fiftyTwoWeekHigh
        fifty_two_week_low := info.fiftyTwoWeekLow
        sector := info.sector
        industry := info.industry
        employees := info.fullTimeEmployees
        dividend_yield :=
          pyOrQ info.trailingAnnualDividendYield
            (match info.dividendYield with
             | some v => if v > 1 then some (v / 100) else some v
             | none => none)
        beta := info.beta
        revenue := info.totalRevenue
        profit_margin := info.profitMargins
        ticker := ticker
        last_trade_time := last_trade_time
        exchange := tableGet exchange_names exchange exchange
        currency := currency
        currency_symbol := tableGet currency_symbols currency (currency ++ " ") }

/-- The prompt of `generate_swot` (`analyst.py` 68-78). -/
def basicPrompt (company_name search_summary website_content : String) : String :=
  "Act as a VC Investor. Write a detailed SWOT analysis for " ++ company_name ++ ".\n" ++
  "\n" ++
  "Return valid JSON with keys: \x27strengths\x27, \x27weaknesses\x27, \x27opportunities\x27, \x27threats\x27 (each a list of strings) and \x27summary\x27 (a 2-sentence overview).\n" ++
  "\n" ++
  "Search Context:\n" ++ search_summary ++ "\n" ++
  "\n" ++
  "Website Content:\n" ++ pySlice website_content 3000 ++ "\n" ++
  "\n" ++
  "Return ONLY valid JSON with no additional text."

/-- The `stock_context` digest block of `generate_swot`
(`deal_flow_app.py` 228-250). -/
def stockContext (stock_data : Option StockData) : String :=
  match stock_data with
  | some sd =>
    let curr_sym := sd.currency_symbol
    let range_str :=
      if qTruthy sd.fifty_two_week_low && qTruthy sd.fifty_two_week_high then
        curr_sym ++ fmtFixed 2 (sd.fifty_two_week_low.getD 0) ++ " - " ++
          curr_sym ++ fmtFixed 2 (sd.fifty_two_week_high.getD 0)
      else "N/A"
    let price_str :=
      if qTruthy sd.current_price then
        curr_sym ++ fmtFixed 2 (sd.current_price.getD 0)
      else "N/A"
    "\nFINANCIAL METRICS (Live Market Data):\n" ++
    "- Stock Ticker: " ++ sd.ticker ++ "\n" ++
    "- Current Price: " ++ price_str ++ "\n" ++
    "- Market Cap: " ++ format_market_cap sd.market_cap ++ "\n" ++
    "- 1-Year Return: " ++
      (if qTruthy sd.year_return then format_number sd.year_return ("") ("%") 2
       else "N/A") ++ "\n" ++
    "- P/E Ratio: " ++
      (if qTruthy sd.trailing_pe then format_number sd.trailing_pe ("") ("") 1
       else "N/A") ++ "\n" ++
    "- 52-Week Range: " ++ range_str ++ "\n" ++
    "- Sector: " ++ showOptStr sd.sector ++ "\n" ++
    "- Industry: " ++ showOptStr sd.industry ++ "\n" ++
    "- Employees: " ++
      (if natTruthy sd.employees then commaNat (sd.employees.getD 0)
       else "N/A") ++ "\n" ++
    "- Beta: " ++
      (if qTruthy sd.beta then format_number sd.beta ("") ("") 2
       else "N/A") ++ "\n"
  | none => "\nNote: This is a PRIVATE company - no public stock data available.\n"

/-- The synthesis prompt of `generate_swot` (`deal_flow_app.py` 252-298).
Literal braces of the embedded JSON template are written `\x7b`/`\x7d`. -/
def dealFlowPrompt (company_name search_summary website_content : String)
    (stock_data : Option StockData) : String :=
  "You are a senior partner at a top-tier venture capital firm with 20+ years of experience evaluating companies.\n" ++
  "You are preparing an investment memo for " ++ company_name ++ " that will be presented to sophisticated investors, LPs, and board members.\n" ++
  "\n" ++
  "Your analysis must be:\n" ++
  "- Deeply analytical with specific evidence and reasoning\n" ++
  "- Nuanced, avoiding generic statements\n" ++
  "- Focused on strategic implications and competitive positioning\n" ++
  "- Forward-looking with clear risk assessment\n" ++
  "- Professional and investment-grade quality\n" ++
  "\n" ++
  "Based on the following information, provide a comprehensive investment analysis.\n" ++
  stockContext stock_data ++ "\n" ++
  "SEARCH CONTEXT & MARKET DATA:\n" ++ search_summary ++ "\n" ++
  "\n" ++
  "WEBSITE CONTENT:\n" ++ pySlice website_content 4000 ++ "\n" ++
  "\n" ++
  "Return valid JSON with the following structure:\n" ++
  "\x7b\n" ++
  "    \"executive_summary\": \"A 3-4 sentence executive summary that captures the investment thesis, key value drivers, and primary risks\",\n" ++
  "    \"risk_rating\": \"One of: LOW, MEDIUM, or HIGH - based on your overall assessment of investment risk\",\n" ++
  "    \"investment_verdict\": \"One of: BUY, HOLD, SELL, or WATCH - your recommendation for investors\",\n" ++
  "    \"strengths\": [\n" ++
  "        \"Each strength should be specific, evidence-based, and explain WHY it matters strategically (3-5 items)\"\n" ++
  "    ],\n" ++
  "    \"weaknesses\": [\n" ++
  "        \"Each weakness should be specific and explain the strategic implications (3-5 items)\"\n" ++
  "    ],\n" ++
  "    \"opportunities\": [\n" ++
  "        \"Each opportunity should be specific, addressable, and explain the potential impact (3-5 items)\"\n" ++
  "    ],\n" ++
  "    \"threats\": [\n" ++
  "        \"Each threat should be specific and explain the potential impact on the business (3-5 items)\"\n" ++
  "    ],\n" ++
  "    \"market_analysis\": \"2-3 sentences on the company\x27s market position, competitive landscape, and market dynamics\",\n" ++
  "    \"strategic_recommendations\": [\n" ++
  "        \"3-4 specific, actionable strategic recommendations based on your analysis\"\n" ++
  "    ],\n" ++
  "    \"investment_considerations\": \"2-3 sentences on key factors an investor should consider (valuation, timing, risk profile, etc.)\"\n" ++
  "\x7d\n" ++
  "\n" ++
  "IMPORTANT:\n" ++
  "- Be specific and evidence-based. Cite specific products, metrics, or news when possible.\n" ++
  "- Each SWOT item should be 1-2 sentences with clear strategic implications.\n" ++
  "- Your risk_rating and investment_verdict should be consistent with your analysis.\n" ++
  "- For public companies, factor in the financial metrics provided."

/-- The parsed JSON analysis dict (the superset schema of both variants);
a `none` field models a key absent from the model's response. -/
structure SwotData where
  executive_summary : Option String := none
  summary : Option String := none
  risk_rating : Option String := none
  investment_verdict : Option String := none
  strengths : Option (List String) := none
  weaknesses : Option (List String) := none
  opportunities : Option (List String) := none
  threats : Option (List String) := none
  market_analysis : Option String := none
  strategic_recommendations : Option (List String) := none
  investment_considerations : Option String := none
deriving DecidableEq

/-- The text-bearing FPDF calls issued by the two `save_pdf` variants
(positioning-only calls such as `set_x`/`add_page` are not modelled). -/
inductive PdfOp
  | setFont (family style : String) (size : Nat)
  | setTextColor (r g b : Nat)
  | cell (text : String)
  | multiCell (text : String)
  | ln (h : Nat)
deriving DecidableEq

/-- The per-item loop shared by every SWOT/recommendation list section:
each item is rendered as a sanitized `"- item"` line, skipped when it
strips to the empty string. -/
def pdfListItems (items : List String) : List PdfOp :=
  items.flatMap fun s =>
    if pyStrip (sanitize_text ("- " ++ s)) ≠ "" then
      [PdfOp.multiCell (sanitize_text ("- " ++ s))]
    else []

/-- One section of `save_pdf` (`analyst.py`): bold header then items. -/
def pdfSection_an (name : String) (items : List String) : List PdfOp :=
  [.setFont ("Arial") ("B") 14, .cell name, .setFont ("Arial") ("") 11] ++
    pdfListItems items

/-- Model of `save_pdf` (`analyst.py` 122-198): the op list and the output
filename `"{company_name}_Memo.pdf"`. -/
def save_pdf_an (company_name : String) (swot : SwotData) : List PdfOp × String :=
  ([.setFont ("Arial") ("B") 20,
    .cell (sanitize_text ("Investment Memo: " ++ company_name)), .ln 10,
    .setFont ("Arial") ("B") 14,
    .cell ("Summary"), .setFont ("Arial") ("") 11,
    .multiCell (sanitize_text (swot.summary.getD ("No summary available."))), .ln 5] ++
   pdfSection_an ("Strengths") (swot.strengths.getD []) ++ [.ln 5] ++
   pdfSection_an ("Weaknesses") (swot.weaknesses.getD []) ++ [.ln 5] ++
   pdfSection_an ("Opportunities") (swot.opportunities.getD []) ++ [.ln 5] ++
   pdfSection_an ("Threats") (swot.threats.getD []),
   company_name ++ "_Memo.pdf")

/-- The ticker shorn of its exchange suffix: everything before the first
dot (`deal_flow_app.py` 354, 386, 588). -/
def tickerClean (ticker : String) : String :=
  String.mk (ticker.data.takeWhile (fun c => c ≠ '.'))

/-- The exchange-qualified ticker display, `ticker_info` in the source. -/
def tickerInfo (exchange ticker : String) : String :=
  if exchange ≠ "" then exchange ++ ": " ++ tickerClean ticker
  else tickerClean ticker

/-- Truthiness of `stock_data and stock_data.get('ticker')` (the dict itself is always
truthy when present). -/
def stockTickerTruthy : Option StockData → Bool
  | some sd => sd.ticker ≠ ""
  | none => false

/-- Truthiness of `stock_data and stock_data.get('current_price')`. -/
def stockPriceTruthy : Option StockData → Bool
  | some sd => qTruthy sd.current_price
  | none => false

/-- Model of `metrics_line1` (`deal_flow_app.py` 388; the enclosing branch
guarantees `current_price` is a number). -/
def metricsLine1 (sd : StockData) : String :=
  "Ticker: " ++ tickerInfo sd.exchange sd.ticker ++
  "  |  Price: " ++ sd.currency_symbol ++ fmtFixed 2 (sd.current_price.getD 0) ++
  "  |  Market Cap: " ++ format_market_cap sd.market_cap

/-- Model of `metrics_line2` (`deal_flow_app.py` 392-396). -/
def metricsLine2 (sd : StockData) : String :=
  (if qTruthy sd.year_return then
    "1-Year Return: " ++ fmtFixed 1 (sd.year_return.getD 0) ++ "%"
   else "1-Year Return: N/A") ++
  (if qTruthy sd.trailing_pe then
    "  |  P/E Ratio: " ++ fmtFixed 1 (sd.trailing_pe.getD 0)
   else "  |  P/E Ratio: N/A") ++
  "  |  Sector: " ++ showOptStr sd.sector

/-- Model of `metrics_line3` (`deal_flow_app.py` 400-408). -/
def metricsLine3 (sd : StockData) : String :=
  "52-Week Range: " ++ sd.currency_symbol ++ fmtFixed 2 (sd.fifty_two_week_low.getD 0) ++
  " - " ++ sd.currency_symbol ++ fmtFixed 2 (sd.fifty_two_week_high.getD 0) ++
  "  |  Industry: " ++ showOptStr sd.industry ++
  (if qTruthy sd.dividend_yield then
    "  |  Dividend Yield: " ++ fmtFixed 2 (sd.dividend_yield.getD 0 * 100) ++ "%"
   else "")

/-- One colored SWOT section of `save_pdf` (`deal_flow_app.py`). -/
def dfSwotSection (name : String) (r g b : Nat) (items : List String) : List PdfOp :=
  [.setFont ("Arial") ("B") 14, .setTextColor r g b, .cell name,
   .setTextColor 0 0 0, .setFont ("Arial") ("") 11] ++
  pdfListItems items ++ [.ln 5]

/-- Ops of `save_pdf` (`deal_flow_app.py`) up to (and including) the
`set_font` preceding the generation-date cell. -/
def dfTitleOps (company_name : String) (stock_data : Option StockData) : List PdfOp :=
  [PdfOp.setFont ("Arial") ("B") 20] ++
  (if stockTickerTruthy stock_data then
    match stock_data with
    | some sd =>
      [PdfOp.cell (sanitize_text ("Investment Memo: " ++ pyTitle company_name ++
        " (" ++ tickerInfo sd.exchange sd.ticker ++ ")"))]
    | none => []
   else [PdfOp.cell (sanitize_text ("Investment Memo: " ++ pyTitle company_name))]) ++
  [PdfOp.setFont ("Arial") ("I") 10]

/-- The financial-metrics segment (or private-company notice) of
`save_pdf` (`deal_flow_app.py` 372-414). -/
def dfMetricsOps (stock_data : Option StockData) : List PdfOp :=
  if stockPriceTruthy stock_data then
    match stock_data with
    | some sd =>
      [PdfOp.setFont ("Arial") ("B") 14, PdfOp.setTextColor 0 51 102,
       PdfOp.cell ("Financial Metrics"), PdfOp.setTextColor 0 0 0,
       PdfOp.setFont ("Arial") ("") 11,
       PdfOp.multiCell (sanitize_text (metricsLine1 sd)),
       PdfOp.multiCell (sanitize_text (metricsLine2 sd))] ++
      (if qTruthy sd.fifty_two_week_low && qTruthy sd.fifty_two_week_high then
        [PdfOp.multiCell (sanitize_text (metricsLine3 sd))]
       else []) ++
      [PdfOp.ln 5]
    | none => []
  else
    [PdfOp.setFont ("Arial") ("I") 11,
     PdfOp.cell ("Private Company - No public stock data available"), PdfOp.ln 5]

/-- The optional market-analysis section of `save_pdf`
(`deal_flow_app.py` 427-438). -/
def dfMarketOps (swot : SwotData) : List PdfOp :=
  if swot.market_analysis.getD ("") ≠ "" then
    [PdfOp.setFont ("Arial") ("B") 14, PdfOp.setTextColor 0 51 102,
     PdfOp.cell ("Market Analysis"), PdfOp.setTextColor 0 0 0,
     PdfOp.setFont ("Arial") ("") 11,
     PdfOp.multiCell (sanitize_text (swot.market_analysis.getD (""))), PdfOp.ln 5]
  else []

/-- The optional strategic-recommendations section of `save_pdf`
(`deal_flow_app.py` 496-510). -/
def dfRecsOps (swot : SwotData) : List PdfOp :=
  if swot.strategic_recommendations.getD [] ≠ [] then
    [PdfOp.setFont ("Arial") ("B") 14, PdfOp.setTextColor 0 51 102,
     PdfOp.cell ("Strategic Recommendations"), PdfOp.setTextColor 0 0 0,
     PdfOp.setFont ("Arial") ("") 11] ++
    pdfListItems (swot.strategic_recommendations.getD []) ++ [PdfOp.ln 5]
  else []

/-- The optional investment-considerations section of `save_pdf`
(`deal_flow_app.py` 512-522). -/
def dfConsOps (swot : SwotData) : List PdfOp :=
  if swot.investment_considerations.getD ("") ≠ "" then
    [PdfOp.setFont ("Arial") ("B") 14, PdfOp.setTextColor 0 51 102,
     PdfOp.cell ("Investment Considerations"), PdfOp.setTextColor 0 0 0,
     PdfOp.setFont ("Arial") ("") 11,
     PdfOp.multiCell (sanitize_text (swot.investment_considerations.getD ("")))]
  else []

/-- Ops of `save_pdf` (`deal_flow_app.py`) after the generation-date
cell (lines 363-522). -/
def dfBodyOps (swot : SwotData) (stock_data : Option StockData) : List PdfOp :=
  [.ln 8,
   .setFont ("Arial") ("B") 12,
   .cell (sanitize_text ("Investment Verdict: " ++ (swot.investment_verdict.getD ("N/A")) ++
     "  |  Risk Rating: " ++ (swot.risk_rating.getD ("N/A")))), .ln 5] ++
  dfMetricsOps stock_data ++
  [.setFont ("Arial") ("B") 14, .setTextColor 0 51 102, .cell ("Executive Summary"),
   .setTextColor 0 0 0, .setFont ("Arial") ("") 11,
   .multiCell (sanitize_text
     (swot.executive_summary.getD (swot.summary.getD ("No summary available.")))), .ln 5] ++
  dfMarketOps swot ++
  dfSwotSection ("Strengths") 34 139 34 (swot.strengths.getD []) ++
  dfSwotSection ("Weaknesses") 178 34 34 (swot.weaknesses.getD []) ++
  dfSwotSection ("Opportunities") 30 144 255 (swot.opportunities.getD []) ++
  dfSwotSection ("Threats") 255 140 0 (swot.threats.getD []) ++
  dfRecsOps swot ++
  dfConsOps swot

/-- Model of `save_pdf` (`deal_flow_app.py` 338-526). `today` is the value of
`datetime.now().strftime('%B %d, %Y')` at render time. -/
def save_pdf_df (company_name : String) (swot : SwotData)
    (stock_data : Option StockData) (today : String) : List PdfOp × String :=
  (dfTitleOps company_name stock_data ++
     [PdfOp.cell ("Generated: " ++ today)] ++
     dfBodyOps swot stock_data,
   company_name ++ "_Memo.pdf")

/-- The Streamlit display blocks issued by the `generate_button` handler
(`deal_flow_app.py` 581-801), in emission order. Styled-HTML headers are
modelled by their dynamic text content. -/
inductive Block
  | headerHtml (title : String)
  | md (text : String)
  | metric (label value : String)
  | caption (text : String)
  | info (text : String)
  | expanderMarker (title : String)
  | quadHeader (title : String)
  | execSummary (text : String)
  | lineChart (points : List ℚ)
  | warning (text : String)
  | divider
  | downloadButton (label fileName : String)
deriving DecidableEq

/-- The dollar-to-HTML-entity replacement of the currency symbol
(`deal_flow_app.py` 635, 778). -/
def dollarHtml (s : String) : String :=
  String.mk (s.data.flatMap fun c => if c = '$' then ['&', '#', '3', '6', ';'] else [c])

/-- Maximum close of the chart history. -/
def listMax (l : List ℚ) : ℚ := l.foldl max (l.head?.getD 0)

/-- Minimum close of the chart history. -/
def listMin (l : List ℚ) : ℚ := l.foldl min (l.head?.getD 0)

/-- The styled page header (`deal_flow_app.py` 583-601). -/
def interHeader (company_name : String) (stock_data : Option StockData) : List Block :=
  if stockTickerTruthy stock_data then
    match stock_data with
    | some sd =>
      [Block.headerHtml (pyTitle company_name ++ " (" ++
        tickerInfo sd.exchange sd.ticker ++ ")")]
    | none => []
  else [Block.headerHtml (pyTitle company_name)]

/-- The financial-metrics area or the private-company notice
(`deal_flow_app.py` 603-658). -/
def interMetrics (stock_data : Option StockData) : List Block :=
  if stockPriceTruthy stock_data then
    match stock_data with
    | some sd =>
      [Block.md ("### Financial Metrics"),
       Block.metric ("Stock Price")
         (if qTruthy sd.current_price then
            sd.currency_symbol ++ fmtFixed 2 (sd.current_price.getD 0)
          else "N/A")] ++
      (if optTruthy sd.last_trade_time then
        [Block.caption ("Last updated: " ++ (sd.last_trade_time.getD ("")))]
       else []) ++
      [Block.metric ("Market Cap") (format_market_cap sd.market_cap),
       Block.metric ("1-Year Return")
         (if qTruthy sd.year_return then fmtFixed 1 (sd.year_return.getD 0) ++ "%"
          else "N/A"),
       Block.metric ("P/E Ratio")
         (if qTruthy sd.trailing_pe then fmtFixed 1 (sd.trailing_pe.getD 0)
          else "N/A"),
       Block.expanderMarker ("More Market Details"),
       (if qTruthy sd.fifty_two_week_low && qTruthy sd.fifty_two_week_high then
         Block.md ("<b>52-Week Range:</b> " ++
           dollarHtml sd.currency_symbol ++ fmtFixed 2 (sd.fifty_two_week_low.getD 0) ++
           " - " ++
           dollarHtml sd.currency_symbol ++ fmtFixed 2 (sd.fifty_two_week_high.getD 0))
        else Block.md ("<b>52-Week Range:</b> N/A")),
       Block.md ("<b>Sector:</b> " ++ showOptStr sd.sector),
       Block.md ("<b>Industry:</b> " ++ showOptStr sd.industry),
       (if qTruthy sd.dividend_yield then
         Block.md ("<b>Dividend Yield:</b> " ++
           fmtFixed 2 (sd.dividend_yield.getD 0 * 100) ++ "%")
        else Block.md ("<b>Dividend Yield:</b> N/A")),
       (if qTruthy sd.beta then
         Block.md ("<b>Beta:</b> " ++ fmtFixed 2 (sd.beta.getD 0))
        else Block.md ("<b>Beta:</b> N/A")),
       (if qTruthy sd.forward_pe then
         Block.md ("<b>Forward P/E:</b> " ++ fmtFixed 1 (sd.forward_pe.getD 0))
        else Block.md ("<b>Forward P/E:</b> N/A")),
       (if natTruthy sd.employees then
         Block.md ("<b>Employees:</b> " ++ commaNat (sd.employees.getD 0))
        else Block.md ("<b>Employees:</b> N/A")),
       (if qTruthy sd.revenue then
         Block.md ("<b>Revenue:</b> " ++ format_market_cap sd.revenue)
        else Block.md ("<b>Revenue:</b> N/A")),
       (if qTruthy sd.profit_margin then
         Block.md ("<b>Profit Margin:</b> " ++
           fmtFixed 1 (sd.profit_margin.getD 0 * 100) ++ "%")
        else Block.md ("<b>Profit Margin:</b> N/A"))]
    | none => []
  else
    [Block.info ("**Private Company** - This company is not publicly traded. No stock data available.")]

/-- The executive summary, spacer and optional market analysis
(`deal_flow_app.py` 662-677). -/
def interSummary (swot : SwotData) : List Block :=
  [Block.execSummary
    (swot.executive_summary.getD (swot.summary.getD ("No summary available."))),
   Block.md ("")] ++
  (if swot.market_analysis.getD ("") ≠ "" then
    [Block.md ("### Market Analysis"), Block.md (swot.market_analysis.getD (""))]
   else [])

/-- One SWOT quadrant: bullet items, or the placeholder when the list is
empty (`deal_flow_app.py` 693-698 and analogues). -/
def quadItems (items : List String) (placeholder : String) : List Block :=
  if items ≠ [] then items.map (fun s => Block.md ("• " ++ s))
  else [Block.md placeholder]

/-- The 2x2 SWOT grid (`deal_flow_app.py` 681-742). -/
def interSwotGrid (swot : SwotData) : List Block :=
  [Block.md ("### SWOT Analysis"), Block.quadHeader ("✅ Strengths")] ++
  quadItems (swot.strengths.getD []) ("*No strengths listed*") ++
  [Block.quadHeader ("⚠️ Weaknesses")] ++
  quadItems (swot.weaknesses.getD []) ("*No weaknesses listed*") ++
  [Block.md ("")] ++
  [Block.quadHeader ("🚀 Opportunities")] ++
  quadItems (swot.opportunities.getD []) ("*No opportunities listed*") ++
  [Block.quadHeader ("🛡️ Threats")] ++
  quadItems (swot.threats.getD []) ("*No threats listed*")

/-- The expandable strategic-recommendations section
(`deal_flow_app.py` 747-751). -/
def interRecs (swot : SwotData) : List Block :=
  if swot.strategic_recommendations.getD [] ≠ [] then
    [Block.expanderMarker ("Strategic Recommendations")] ++
      (swot.strategic_recommendations.getD []).map (fun r => Block.md ("- " ++ r))
  else []

/-- The optional investment-considerations section
(`deal_flow_app.py` 754-758). -/
def interConsiderations (swot : SwotData) : List Block :=
  if swot.investment_considerations.getD ("") ≠ "" then
    [Block.md ("### Investment Considerations"),
     Block.md (swot.investment_considerations.getD ("")), Block.divider]
  else []

/-- The stock-price chart section (`deal_flow_app.py` 760-784); `chart`
models the `yf.Ticker(...).history("1y")` call issued at render time. -/
def interChart (stock_data : Option StockData)
    (chart : Except String (List ℚ)) : List Block :=
  if stockTickerTruthy stock_data then
    match stock_data with
    | some sd =>
      [Block.md ("### Stock Price History (1 Year)")] ++
      (match chart with
       | .ok closes =>
         if closes ≠ [] then
           [Block.lineChart closes,
            Block.md ("52-week range: " ++
              dollarHtml sd.currency_symbol ++ fmtFixed 2 (listMin closes) ++ " - " ++
              dollarHtml sd.currency_symbol ++ fmtFixed 2 (listMax closes))]
         else [Block.info ("Stock price history not available.")]
       | .error e => [Block.warning ("Could not load stock chart: " ++ e)]) ++
      [Block.divider]
    | none => []
  else []

/-- The full interactive projection of one successful run
(`deal_flow_app.py` 581-784). -/
def renderInteractive (company_name : String) (swot : SwotData)
    (stock_data : Option StockData) (chart : Except String (List ℚ)) : List Block :=
  interHeader company_name stock_data ++
  interMetrics stock_data ++
  [Block.divider] ++
  interSummary swot ++
  [Block.divider] ++
  interSwotGrid swot ++
  [Block.divider] ++
  interRecs swot ++
  interConsiderations swot ++
  interChart stock_data chart

/-- External-collaborator invocations, recorded in run order. -/
inductive Event
  | tickerQuery (company : String)
  | marketFetch (ticker : String)
  | webSearch (query : String)
  | newsSearch (query : String)
  | scrape (url : String)
  | genQuery (prompt : String)
  | pdfSave (fileName : String)
deriving DecidableEq

/-- Outcome of the `__main__` run of `analyst.py`: `exited` is the
`exit(1)` path with its printed message, `crashed` an uncaught exception
(the `json.loads` failure), `finished` a produced report. -/
inductive AnalystOutcome
  | exited (msg : String)
  | crashed (msg : String)
  | finished (pdf : List PdfOp) (fileName : String)
deriving DecidableEq

/-- Collaborator responses for one `analyst.py` run: the search result
list, the scrape outcome, and the outcome of `json.loads` on the
generation collaborator's reply. -/
structure AnalystEnv where
  searchResults : List SearchResult := []
  scrapeOutcome : Except String String := .error ""
  swotParse : Except String SwotData := .error ""

/-- The `__main__` pipeline of `analyst.py` (lines 202-237); the company
is hardcoded to `'Shopify'` there. -/
def analystMain (env : AnalystEnv) : List Event × AnalystOutcome :=
  let res := get_company_info env.searchResults
  let evs := [Event.webSearch ("Shopify official website home page")]
  if ¬ optTruthy res.1 then
    (evs, .exited ("Error: Could not find website for Shopify"))
  else
    let evs := evs ++ [Event.scrape (res.1.getD (""))]
    let website_content := analyze_website env.scrapeOutcome
    let evs := evs ++ [Event.genQuery (basicPrompt ("Shopify") res.2 website_content)]
    match env.swotParse with
    | .error e => (evs, .crashed e)
    | .ok swot =>
      let pdfres := save_pdf_an ("Shopify") swot
      (evs ++ [Event.pdfSave pdfres.2], .finished pdfres.1 pdfres.2)

/-- Outcome of one `generate_button` run of `deal_flow_app.py`:
an `st.error` message, or the rendered report (display blocks, PDF ops,
output filename). -/
inductive Outcome
  | errorMsg (msg : String)
  | report (blocks : List Block) (pdf : List PdfOp) (fileName : String)
deriving DecidableEq

/-- Collaborator responses for one `deal_flow_app.py` run. `swotParse`
models the outcome of `json.loads` on the synthesis reply, `chartHist`
the history re-fetch of the chart section, `today` the clock read of
`save_pdf`, and `fmtTime` the timestamp formatting inside
`fetch_stock_data`. -/
structure Env where
  companyName : String := ""
  tickerResponse : String := "PRIVATE"
  fmtTime : Nat → String := fun _ => ""
  stockOutcome : Except String YfInfo := .error ""
  searchResults : List SearchResult := []
  newsResults : List SearchResult := []
  scrapeOutcome : Except String String := .error ""
  swotParse : Except String SwotData := .error ""
  chartHist : Except String (List ℚ) := .error ""
  today : String := ""

/-- The `stock_data` value as computed by steps 1-2 of the handler
(`deal_flow_app.py` 548-555). -/
def pipelineStock (env : Env) : Option StockData :=
  match get_ticker_symbol env.tickerResponse with
  | some t =>
    if t ≠ "" then fetch_stock_data env.fmtTime t env.stockOutcome else none
  | none => none

/-- The `search_summary` of step 3 of the handler. -/
def pipelineSummary (env : Env) : String :=
  (get_company_info_df env.searchResults env.newsResults).2

/-- The `generate_button` handler of `deal_flow_app.py` (lines 536-806):
the trace of collaborator invocations and the run outcome. The
module-level `try/except` reports an uncaught exception (the `json.loads`
failure of `generate_swot`) as `st.error(f'Error: {str(e)}')`. -/
def runPipeline (env : Env) : List Event × Outcome :=
  if env.companyName = "" then
    ([], .errorMsg ("Please enter a company name"))
  else
    let evs := [Event.tickerQuery env.companyName] ++
      (match get_ticker_symbol env.tickerResponse with
       | some t => if t ≠ "" then [Event.marketFetch t] else []
       | none => [])
    let stock_data := pipelineStock env
    let res := get_company_info_df env.searchResults env.newsResults
    let evs := evs ++ [Event.webSearch (env.companyName ++ " official website home page")] ++
      (if env.searchResults.isEmpty then []
       else [Event.newsSearch (env.companyName ++ " recent news 2024 2025")])
    if ¬ optTruthy res.1 then
      (evs, .errorMsg ("Could not find website for " ++ env.companyName))
    else
      let evs := evs ++ [Event.scrape (res.1.getD (""))]
      let website_content := analyze_website env.scrapeOutcome
      let prompt := dealFlowPrompt env.companyName res.2 website_content stock_data
      let evs := evs ++ [Event.genQuery prompt]
      match env.swotParse with
      | .error e => (evs, .errorMsg ("Error: " ++ e))
      | .ok swot =>
        let pdfres := save_pdf_df env.companyName swot stock_data env.today
        (evs ++ [Event.pdfSave pdfres.2],
         .report
           (renderInteractive env.companyName swot stock_data env.chartHist ++
             [Block.downloadButton ("Download Investment Memo PDF") pdfres.2])
           pdfres.1 pdfres.2)

/-- Does a trace invoke the scraping collaborator? -/
def invokesScrape (evs : List Event) : Bool :=
  evs.any fun ev => match ev with | .scrape _ => true | _ => false

/-- Does a trace invoke the synthesis (generation) collaborator? -/
def invokesGen (evs : List Event) : Bool :=
  evs.any fun ev => match ev with | .genQuery _ => true | _ => false

/-- Does a trace invoke the market-data collaborator? -/
def invokesMarket (evs : List Event) : Bool :=
  evs.any fun ev => match ev with | .marketFetch _ => true | _ => false

/-- Does a trace write the PDF artifact? -/
def invokesPdf (evs : List Event) : Bool :=
  evs.any fun ev => match ev with | .pdfSave _ => true | _ => false

/-- The synthesis prompts of a trace, in order. -/
def genPrompts (evs : List Event) : List String :=
  evs.filterMap fun ev => match ev with | .genQuery p => some p | _ => none

/-- The expander title of a display block, when it is one. -/
def expKey : Block → Option String
  | .expanderMarker t => some t
  | _ => none

/-- The expander titles of a display-block sequence. -/
def expTitles (bs : List Block) : List String := bs.filterMap expKey

/-- The header-cell text of a PDF op, when it is a `cell`. -/
def cellKey : PdfOp → Option String
  | .cell t => some t
  | _ => none

/-- The header-cell texts of a PDF op sequence. -/
def cellTexts (ops : List PdfOp) : List String := ops.filterMap cellKey

lemma sanitizeChar_good (a c : Char) (h : c ∈ sanitizeChar a) :
    c.toNat < 256 ∧ c ∉ typographicChars := by
  unfold sanitizeChar at h
  split_ifs at h with h1 h2 h3 h4 h5 h6 h7 h8 h9
  · simp at h; subst h; decide
  · simp at h; subst h; decide
  · simp at h; subst h; decide
  · simp at h; subst h; decide
  · simp at h; subst h; decide
  · simp at h; subst h; decide
  · simp at h; subst h; decide
  · simp at h; subst h; decide
  · simp at h; subst h
    exact ⟨h9, by simp [typographicChars, h1, h2, h3, h4, h5, h6, h7, h8]⟩
  · simp at h; subst h; decide

lemma sanitizeChar_fixed (c : Char) (h1 : c.toNat < 256)
    (h2 : c ∉ typographicChars) : sanitizeChar c = [c] := by
  simp only [typographicChars, List.mem_cons, List.mem_singleton, not_or] at h2
  obtain ⟨n1, n2, n3, n4, n5, n6, n7, n8⟩ := h2
  simp [sanitizeChar, n1, n2, n3, n4, n5, n6, n7, n8, h1]

lemma flatMap_sanitizeChar_id (l : List Char)
    (h : ∀ c ∈ l, sanitizeChar c = [c]) : l.flatMap sanitizeChar = l := by
  induction l with
  | nil => rfl
  | cons x xs ih =>
    rw [List.flatMap_cons, h x (List.mem_cons_self x xs),
      ih (fun c hc => h c (List.mem_cons_of_mem x hc))]
    rfl

/-- C6: for every input string, the output of `sanitize_text` is exactly
the per-character substitution given by `sanitizeChar` (each typographic
character appears only as its ASCII substitution), it contains none of the
eight typographic characters of the substitution table, and every output
character lies below code point 256 (out-of-range characters having been
replaced by the `?` placeholder). -/
theorem c6_sanitize_substitution_and_range (s : String) :
    (sanitize_text s).data = s.data.flatMap sanitizeChar ∧
    ∀ c ∈ (sanitize_text s).data, c.toNat < 256 ∧ c ∉ typographicChars := by
  refine ⟨sanitize_data s, ?_⟩
  intro c hc
  rw [sanitize_data s] at hc
  rcases List.mem_flatMap.mp hc with ⟨a, _, hca⟩
  exact sanitizeChar_good a c hca

/-- Witness for C6 at the concrete input `"a•b"`. -/
theorem c6_witness : ('-').toNat < 256 ∧ ('-') ∉ typographicChars :=
  (c6_sanitize_substitution_and_range ("a•b")).2 '-' (by decide)

lemma flatMap_sanitizeChar_twice (l : List Char) :
    (l.flatMap sanitizeChar).flatMap sanitizeChar = l.flatMap sanitizeChar := by
  induction l with
  | nil => rfl
  | cons x xs ih =>
    rw [List.flatMap_cons, List.flatMap_append, ih]
    congr 1
    apply flatMap_sanitizeChar_id
    intro c hc
    obtain ⟨g1, g2⟩ := sanitizeChar_good x c hc
    exact sanitizeChar_fixed c g1 g2

/-- C10: `sanitize_text` is idempotent — a second pass never changes
already-sanitized text. -/
theorem c10_sanitize_idempotent (s : String) :
    sanitize_text (sanitize_text s) = sanitize_text s := by
  apply String.ext
  rw [sanitize_data (sanitize_text s), sanitize_data s]
  exact flatMap_sanitizeChar_twice s.data

/-- C8: for every markdown string returned by the scrape collaborator,
`analyze_website` returns exactly its first 5000 characters: the result
is a prefix (the input is the result followed by the dropped tail) of
length `min (length) 5000`, hence never longer than 5000. -/
theorem c8_harvest_truncation (md : String) :
    (analyze_website (Except.ok md)).data = md.data.take 5000 ∧
    md.data = (analyze_website (Except.ok md)).data ++ md.data.drop 5000 ∧
    (analyze_website (Except.ok md)).data.length = min md.data.length 5000 ∧
    (analyze_website (Except.ok md)).data.length ≤ 5000 := by
  refine ⟨rfl, ?_, ?_, ?_⟩
  · exact (List.take_append_drop 5000 md.data).symm
  · show (md.data.take 5000).length = _
    rw [List.length_take, Nat.min_comm]
  · show (md.data.take 5000).length ≤ 5000
    exact List.length_take_le 5000 md.data

/-- C9 (amended): an exchange code outside the lookup table passes into
the snapshot's `exchange` display field unchanged, while a currency code
outside its table is rendered in `currency_symbol` as the code followed
by a trailing space (the `f"{currency} "` fallback), not unchanged. -/
theorem c9_unrecognized_codes_fallback (fmtT : Nat → String) (t : String)
    (info : YfInfo)
    (hx : ∀ pr ∈ exchange_names, pr.1 ≠ info.exchange.getD (""))
    (hc : ∀ pr ∈ currency_symbols, pr.1 ≠ info.currency.getD ("USD")) :
    (fetch_stock_data fmtT t (Except.ok info)).map StockData.exchange =
      some (info.exchange.getD ("")) ∧
    (fetch_stock_data fmtT t (Except.ok info)).map StockData.currency_symbol =
      some ((info.currency.getD ("USD")) ++ " ") := by
  have hx2 : exchange_names.find? (fun pr => pr.1 == info.exchange.getD ("")) = none :=
    List.find?_eq_none.mpr (fun pr hpr => by simpa using hx pr hpr)
  have hc2 : currency_symbols.find? (fun pr => pr.1 == info.currency.getD ("USD")) = none :=
    List.find?_eq_none.mpr (fun pr hpr => by simpa using hc pr hpr)
  constructor <;> simp [fetch_stock_data, tableGet, hx2, hc2]

/-- Market-data record with codes outside both lookup tables. -/
def infoC9 : YfInfo := { exchange := some ("SWX"), currency := some ("INR") }

/-- Witness for C9's amended theorem at a concrete unrecognized pair. -/
theorem c9_witness :
    (fetch_stock_data (fun _ => "") ("ABC") (Except.ok infoC9)).map StockData.exchange =
      some ((infoC9.exchange.getD (""))) ∧
    (fetch_stock_data (fun _ => "") ("ABC") (Except.ok infoC9)).map StockData.currency_symbol =
      some ((infoC9.currency.getD ("USD")) ++ " ") :=
  c9_unrecognized_codes_fallback (fun _ => "") ("ABC") infoC9 (by decide) (by decide)

/-- Counterexample for C9 as stated: the unrecognized currency code
`"INR"` is not passed through unchanged — the snapshot's display symbol
is `"INR "` (trailing space appended). -/
theorem c9_counterexample :
    (fetch_stock_data (fun _ => "") ("ABC") (Except.ok infoC9)).map StockData.currency_symbol =
      some ("INR ") ∧ ("INR " : String) ≠ "INR" := by
  exact ⟨rfl, by decide⟩

/-- C4 (amended): when the market fetch fails, the snapshot is entirely
absent (`fetch_stock_data` yields `none`, not a partial record), and the
synthesis prompt built in that case is identical to — not different
from — the prompt built when no ticker exists, given identical other
inputs; accordingly the pipeline's `stock_data` is `none` whenever the
yfinance call fails. -/
theorem c4_market_failure_prompt_identical (fmtT : Nat → String)
    (t e c s w : String) (env : Env)
    (he : env.stockOutcome = Except.error e) :
    fetch_stock_data fmtT t (Except.error e) = none ∧
    dealFlowPrompt c s w (fetch_stock_data fmtT t (Except.error e)) =
      dealFlowPrompt c s w none ∧
    pipelineStock env = none := by
  refine ⟨rfl, rfl, ?_⟩
  unfold pipelineStock
  cases h : get_ticker_symbol env.tickerResponse with
  | none => rfl
  | some tk =>
    by_cases ht : tk = ""
    · simp [ht]
    · simp [ht, he, fetch_stock_data]

/-- Environment with a resolvable ticker whose market fetch fails. -/
def envC4 : Env :=
  { companyName := "Acme", tickerResponse := "XYZ",
    stockOutcome := .error ("boom") }

/-- Witness for C4's amended theorem at a concrete failing fetch. -/
theorem c4_witness : pipelineStock envC4 = none :=
  (c4_market_failure_prompt_identical (fun _ => "") ("XYZ") ("boom")
    ("a") ("b") ("c") envC4 rfl).2.2

/-- Counterexample for C4 as stated: with a ticker present and the fetch
failing, the synthesis prompt equals the no-ticker prompt at identical
other inputs — the claim said it must differ. -/
theorem c4_counterexample :
    fetch_stock_data (fun _ => "") ("XYZ") (Except.error ("boom")) = none ∧
    dealFlowPrompt ("Acme") ("ctx") ("web")
        (fetch_stock_data (fun _ => "") ("XYZ") (Except.error ("boom"))) =
      dealFlowPrompt ("Acme") ("ctx") ("web") none := ⟨rfl, rfl⟩

/-- C7 (amended): each renderer is a deterministic function of its
arguments plus, for the richer document variant, the generation date read
from the clock: repeated rendering with the same inputs and the same date
is identical, and two renders with different dates differ exactly at the
`Generated:` cell. -/
theorem c7_render_deterministic_given_date (c : String) (d : SwotData)
    (stock : Option StockData) (t : String) (ch : Except String (List ℚ)) :
    save_pdf_df c d stock t = save_pdf_df c d stock t ∧
    save_pdf_an c d = save_pdf_an c d ∧
    renderInteractive c d stock ch = renderInteractive c d stock ch ∧
    (∀ t₂ : String, ∃ a b : List PdfOp,
      (save_pdf_df c d stock t).1 = a ++ [PdfOp.cell ("Generated: " ++ t)] ++ b ∧
      (save_pdf_df c d stock t₂).1 = a ++ [PdfOp.cell ("Generated: " ++ t₂)] ++ b) := by
  refine ⟨rfl, rfl, rfl, fun t₂ => ⟨dfTitleOps c stock, dfBodyOps d stock, rfl, rfl⟩⟩

/-- Counterexample for C7 as stated: the richer document renderer is not
a function of the input triple alone — the same triple rendered under two
clock dates yields different byte content. -/
theorem c7_counterexample :
    save_pdf_df ("Acme") ({} : SwotData) none ("January 01, 2025") ≠
      save_pdf_df ("Acme") ({} : SwotData) none ("January 02, 2025") := by
  decide

/-- C1 (amended): when the search collaborator returns zero results, the
pipeline reports the explicit `Could not find website` condition and never
invokes the page harvester, the synthesizer or the document writer (the
market harvester of the richer variant, however, runs before identity
resolution); the basic `analyst.py` pipeline likewise exits before
scraping or synthesis. -/
theorem c1_zero_results_stop (env : Env)
    (h1 : env.companyName ≠ "") (h0 : env.searchResults = []) :
    invokesScrape (runPipeline env).1 = false ∧
    invokesGen (runPipeline env).1 = false ∧
    invokesPdf (runPipeline env).1 = false ∧
    (runPipeline env).2 = .errorMsg ("Could not find website for " ++ env.companyName) ∧
    (∀ aenv : AnalystEnv, aenv.searchResults = [] →
      invokesScrape (analystMain aenv).1 = false ∧
      invokesGen (analystMain aenv).1 = false ∧
      (analystMain aenv).2 = .exited ("Error: Could not find website for Shopify")) := by
  have hrun : runPipeline env =
      ([Event.tickerQuery env.companyName] ++
        (match get_ticker_symbol env.tickerResponse with
         | some t => if t ≠ "" then [Event.marketFetch t] else []
         | none => []) ++
        [Event.webSearch (env.companyName ++ " official website home page")],
       .errorMsg ("Could not find website for " ++ env.companyName)) := by
    simp [runPipeline, h1, h0, get_company_info_df, optTruthy]
  have han : ∀ aenv : AnalystEnv, aenv.searchResults = [] →
      analystMain aenv =
        ([Event.webSearch ("Shopify official website home page")],
         .exited ("Error: Could not find website for Shopify")) := by
    intro aenv ha
    simp [analystMain, ha, get_company_info, optTruthy]
  have hevents : ∀ f : Event → Bool,
      (f (Event.tickerQuery env.companyName) = false) →
      (∀ t, f (Event.marketFetch t) = false) →
      (f (Event.webSearch (env.companyName ++ " official website home page")) = false) →
      (runPipeline env).1.any f = false := by
    intro f hf1 hf2 hf3
    rw [hrun]
    cases hg : get_ticker_symbol env.tickerResponse with
    | none => simp [hf1, hf3]
    | some tk =>
      by_cases ht : tk = "" <;> simp [ht, hf1, hf2, hf3]
  refine ⟨hevents _ rfl (fun t => rfl) rfl, hevents _ rfl (fun t => rfl) rfl,
    hevents _ rfl (fun t => rfl) rfl, by rw [hrun], ?_⟩
  intro aenv ha
  rw [han aenv ha]
  exact ⟨rfl, rfl, rfl⟩

/-- Environment with a resolvable ticker but zero search results. -/
def envC1 : Env :=
  { companyName := "Acme", tickerResponse := "ACME",
    stockOutcome := .error ("down"), searchResults := [] }

/-- Basic-pipeline environment with zero search results. -/
def aenvC1 : AnalystEnv := { searchResults := [] }

/-- Witness for C1's amended theorem at concrete zero-result inputs. -/
theorem c1_witness :
    invokesGen (runPipeline envC1).1 = false ∧
    (analystMain aenvC1).2 = .exited ("Error: Could not find website for Shopify") :=
  ⟨(c1_zero_results_stop envC1 (by decide) rfl).2.1,
   ((c1_zero_results_stop envC1 (by decide) rfl).2.2.2.2 aenvC1 rfl).2.2⟩

/-- Counterexample for C1 as stated: in the richer variant the market
harvester is invoked even though the search returned zero results — the
ticker check and market fetch precede identity resolution. -/
theorem c1_counterexample :
    envC1.searchResults = [] ∧
    invokesMarket (runPipeline envC1).1 = true ∧
    (runPipeline envC1).2 = .errorMsg ("Could not find website for Acme") := by
  refine ⟨rfl, by decide, by decide⟩

/-- C2: a synthesis reply that fails to parse as JSON is terminal — the
run ends in a reported error and no report is produced — while a reply
that parses yields the report rendered from exactly the parsed object; in
the basic pipeline the parse failure propagates as an uncaught crash. -/
theorem c2_json_parse_failure_terminal (env : Env)
    (h1 : env.companyName ≠ "")
    (h2 : optTruthy (get_company_info_df env.searchResults env.newsResults).1 = true) :
    (∀ e, env.swotParse = .error e →
      (runPipeline env).2 = .errorMsg ("Error: " ++ e) ∧
      ∀ blocks ops fn, (runPipeline env).2 ≠ .report blocks ops fn) ∧
    (∀ d, env.swotParse = .ok d →
      (runPipeline env).2 = .report
        (renderInteractive env.companyName d (pipelineStock env) env.chartHist ++
          [Block.downloadButton ("Download Investment Memo PDF")
            (env.companyName ++ "_Memo.pdf")])
        (save_pdf_df env.companyName d (pipelineStock env) env.today).1
        (env.companyName ++ "_Memo.pdf")) ∧
    (∀ aenv : AnalystEnv, ∀ e, aenv.swotParse = .error e →
      optTruthy (get_company_info aenv.searchResults).1 = true →
      (analystMain aenv).2 = .crashed e) := by
  refine ⟨?_, ?_, ?_⟩
  · intro e he
    constructor
    · simp [runPipeline, h1, h2, he]
    · intro blocks ops fn
      simp [runPipeline, h1, h2, he]
  · intro d hd
    simp [runPipeline, h1, h2, hd, save_pdf_df]
  · intro aenv e he hurl
    simp [analystMain, hurl, he]

/-- Environment whose synthesis reply fails to parse. -/
def envC2 : Env :=
  { companyName := "Acme",
    searchResults := [{ title := some ("Acme"), url := some ("https://acme.example"),
                        content := some ("w") }],
    swotParse := .error ("Expecting value") }

/-- Witness for C2 at a concrete failing parse. -/
theorem c2_witness :
    (runPipeline envC2).2 = .errorMsg ("Error: Expecting value") :=
  ((c2_json_parse_failure_terminal envC2 (by decide) (by decide)).1
    ("Expecting value") rfl).1

/-- C3: a scrape-collaborator failure makes `analyze_website` return the
empty string, and the pipeline still reaches synthesis, building the
prompt over that empty harvested content rather than aborting. -/
theorem c3_scrape_failure_degrades (env : Env) (e : String)
    (h1 : env.companyName ≠ "")
    (h2 : optTruthy (get_company_info_df env.searchResults env.newsResults).1 = true)
    (hs : env.scrapeOutcome = .error e) :
    analyze_website env.scrapeOutcome = "" ∧
    Event.genQuery (dealFlowPrompt env.companyName (pipelineSummary env) ("")
        (pipelineStock env)) ∈ (runPipeline env).1 ∧
    invokesGen (runPipeline env).1 = true ∧
    (∀ aenv : AnalystEnv, optTruthy (get_company_info aenv.searchResults).1 = true →
      aenv.scrapeOutcome = .error e →
      Event.genQuery (basicPrompt ("Shopify") (get_company_info aenv.searchResults).2 (""))
        ∈ (analystMain aenv).1) := by
  refine ⟨by rw [hs]; rfl, ?_, ?_, ?_⟩
  · cases hp : env.swotParse with
    | error e2 => simp [runPipeline, h1, h2, hs, hp, pipelineSummary, analyze_website]
    | ok d => simp [runPipeline, h1, h2, hs, hp, pipelineSummary, analyze_website]
  · cases hp : env.swotParse with
    | error e2 =>
      simp [runPipeline, h1, h2, hs, hp, invokesGen, List.any_append]
    | ok d =>
      simp [runPipeline, h1, h2, hs, hp, invokesGen, List.any_append]
  · intro aenv hurl hsa
    cases hp : aenv.swotParse with
    | error e2 => simp [analystMain, hurl, hsa, hp, analyze_website]
    | ok d => simp [analystMain, hurl, hsa, hp, analyze_website]

/-- Environment whose scrape call raises. -/
def envC3 : Env :=
  { companyName := "Acme",
    searchResults := [{ title := some ("Acme"), url := some ("https://acme.example"),
                        content := some ("w") }],
    scrapeOutcome := .error ("blocked"), swotParse := .ok {} }

/-- Witness for C3 at a concrete failing scrape. -/
theorem c3_witness :
    analyze_website envC3.scrapeOutcome = "" ∧
    invokesGen (runPipeline envC3).1 = true :=
  ⟨(c3_scrape_failure_degrades envC3 ("blocked") (by decide) (by decide) rfl).1,
   (c3_scrape_failure_degrades envC3 ("blocked") (by decide) (by decide) rfl).2.2.1⟩

/-- First character of a string, used to separate dynamically built
cells from section-header literals. -/
def headChar (s : String) : Option Char := s.data.head?

lemma ne_of_headChar (s t : String) (h : headChar s ≠ headChar t) : s ≠ t :=
  fun he => h (by rw [he])

lemma headChar_append (a b : String) (c : Char) (l : List Char)
    (hl : a.data = c :: l) : headChar (a ++ b) = some c := by
  rw [headChar, String.data_append, hl]; rfl

lemma sanitize_append_head (pre r : String) (c : Char) (l : List Char)
    (hl : pre.data = c :: l) (hc : sanitizeChar c = [c]) :
    headChar (sanitize_text (pre ++ r)) = some c := by
  rw [headChar, sanitize_data, String.data_append, hl, List.cons_append,
    List.flatMap_cons, hc]
  rfl

@[simp] lemma expKey_headerHtml (t : String) : expKey (Block.headerHtml t) = none := rfl
@[simp] lemma expKey_md (t : String) : expKey (Block.md t) = none := rfl
@[simp] lemma expKey_metric (a b : String) : expKey (Block.metric a b) = none := rfl
@[simp] lemma expKey_caption (t : String) : expKey (Block.caption t) = none := rfl
@[simp] lemma expKey_info (t : String) : expKey (Block.info t) = none := rfl
@[simp] lemma expKey_expanderMarker (t : String) : expKey (Block.expanderMarker t) = some t := rfl
@[simp] lemma expKey_quadHeader (t : String) : expKey (Block.quadHeader t) = none := rfl
@[simp] lemma expKey_execSummary (t : String) : expKey (Block.execSummary t) = none := rfl
@[simp] lemma expKey_lineChart (p : List ℚ) : expKey (Block.lineChart p) = none := rfl
@[simp] lemma expKey_warning (t : String) : expKey (Block.warning t) = none := rfl
@[simp] lemma expKey_divider : expKey Block.divider = none := rfl
@[simp] lemma expKey_downloadButton (a b : String) : expKey (Block.downloadButton a b) = none := rfl

@[simp] lemma cellKey_setFont (a b : String) (n : Nat) : cellKey (PdfOp.setFont a b n) = none := rfl
@[simp] lemma cellKey_setTextColor (r g b : Nat) : cellKey (PdfOp.setTextColor r g b) = none := rfl
@[simp] lemma cellKey_cell (t : String) : cellKey (PdfOp.cell t) = some t := rfl
@[simp] lemma cellKey_multiCell (t : String) : cellKey (PdfOp.multiCell t) = none := rfl
@[simp] lemma cellKey_ln (n : Nat) : cellKey (PdfOp.ln n) = none := rfl

lemma expKey_ite (c : Prop) [Decidable c] (x y : Block) :
    expKey (if c then x else y) = if c then expKey x else expKey y :=
  apply_ite expKey c x y

lemma cellKey_ite (c : Prop) [Decidable c] (x y : PdfOp) :
    cellKey (if c then x else y) = if c then cellKey x else cellKey y :=
  apply_ite cellKey c x y

lemma expTitles_append (a b : List Block) :
    expTitles (a ++ b) = expTitles a ++ expTitles b :=
  List.filterMap_append a b expKey

lemma cellTexts_append (a b : List PdfOp) :
    cellTexts (a ++ b) = cellTexts a ++ cellTexts b :=
  List.filterMap_append a b cellKey

lemma expTitles_interHeader (c : String) (stock : Option StockData) :
    expTitles (interHeader c stock) = [] := by
  cases stock <;> simp [interHeader, expTitles, stockTickerTruthy] <;>
    split <;> simp [expTitles]

lemma expTitles_interMetrics (stock : Option StockData) :
    expTitles (interMetrics stock) = [] ∨
    expTitles (interMetrics stock) = ["More Market Details"] := by
  cases stock with
  | none => left; rfl
  | some sd =>
    by_cases h : qTruthy sd.current_price
    · by_cases hlt : optTruthy sd.last_trade_time
      · right
        simp [interMetrics, stockPriceTruthy, h, hlt, expTitles,
          expKey_ite, ite_self, List.filterMap_append]
      · right
        simp [interMetrics, stockPriceTruthy, h, hlt, expTitles,
          expKey_ite, ite_self, List.filterMap_append]
    · left
      simp [interMetrics, stockPriceTruthy, h, expTitles]

lemma expTitles_interSummary (swot : SwotData) :
    expTitles (interSummary swot) = [] := by
  by_cases h : swot.market_analysis.getD ("") = "" <;>
    simp [interSummary, h, expTitles, List.filterMap_append]

lemma expTitles_quadItems (items : List String) (ph : String) :
    expTitles (quadItems items ph) = [] := by
  by_cases h : items = [] <;>
    simp [quadItems, h, expTitles, List.filterMap_map, Function.comp]

lemma expTitles_interSwotGrid (swot : SwotData) :
    expTitles (interSwotGrid swot) = [] := by
  simp only [interSwotGrid, expTitles_append, expTitles_quadItems]
  simp [expTitles]

lemma expTitles_interRecs (swot : SwotData)
    (h : swot.strategic_recommendations.getD [] = []) :
    expTitles (interRecs swot) = [] := by
  simp [interRecs, h, expTitles]

lemma expTitles_interConsiderations (swot : SwotData) :
    expTitles (interConsiderations swot) = [] := by
  by_cases h : swot.investment_considerations.getD ("") = "" <;>
    simp [interConsiderations, h, expTitles]

lemma expTitles_interChart (stock : Option StockData)
    (ch : Except String (List ℚ)) :
    expTitles (interChart stock ch) = [] := by
  cases stock with
  | none => rfl
  | some sd =>
    by_cases h : sd.ticker = ""
    · simp [interChart, stockTickerTruthy, h, expTitles]
    · cases ch with
      | error e =>
        simp [interChart, stockTickerTruthy, h, expTitles,
          List.filterMap_append]
      | ok closes =>
        by_cases hcl : closes = [] <;>
          simp [interChart, stockTickerTruthy, h, hcl, expTitles,
            List.filterMap_append]

lemma headChar_append_left (a b : String) (c : Char)
    (h : headChar a = some c) : headChar (a ++ b) = some c := by
  rw [headChar, String.data_append]
  rw [headChar] at h
  cases hd : a.data with
  | nil => rw [hd] at h; cases h
  | cons x xs => rw [hd] at h; simpa using h

lemma headChar_sanitize (s : String) (c : Char) (hc : sanitizeChar c = [c])
    (hs : headChar s = some c) : headChar (sanitize_text s) = some c := by
  rw [headChar] at hs ⊢
  rw [sanitize_data]
  cases hd : s.data with
  | nil => rw [hd] at hs; cases hs
  | cons x xs =>
    rw [hd] at hs
    have hx : x = c := by simpa using hs
    subst hx
    rw [List.flatMap_cons, hc]
    rfl

lemma ne_of_headChars (s t : String) (c₁ c₂ : Char) (h1 : headChar s = some c₁)
    (h2 : headChar t = some c₂) (hne : c₁ ≠ c₂) : s ≠ t := by
  apply ne_of_headChar
  rw [h1, h2]
  simp [hne]

lemma cellTexts_pdfListItems (items : List String) :
    cellTexts (pdfListItems items) = [] := by
  induction items with
  | nil => rfl
  | cons x xs ih =>
    simp only [pdfListItems, List.flatMap_cons, cellTexts_append] at *
    rw [apply_ite cellTexts, ih]
    simp [cellTexts]

lemma cellTexts_dfSwotSection (name : String) (r g b : Nat) (items : List String) :
    cellTexts (dfSwotSection name r g b items) = [name] := by
  simp only [dfSwotSection, cellTexts_append, cellTexts_pdfListItems]
  simp [cellTexts]

lemma expTitles_divider : expTitles [Block.divider] = [] := rfl

lemma strategic_marker_notin (c : String) (swot : SwotData)
    (stock : Option StockData) (ch : Except String (List ℚ))
    (h : swot.strategic_recommendations.getD [] = []) :
    Block.expanderMarker ("Strategic Recommendations") ∉
      renderInteractive c swot stock ch := by
  intro hmem
  have ht : ("Strategic Recommendations" : String) ∈
      expTitles (renderInteractive c swot stock ch) :=
    List.mem_filterMap.mpr ⟨_, hmem, rfl⟩
  simp only [renderInteractive, expTitles_append, expTitles_interHeader,
    expTitles_interSummary, expTitles_interSwotGrid,
    expTitles_interRecs swot h, expTitles_interConsiderations,
    expTitles_interChart, expTitles_divider, List.append_nil,
    List.nil_append] at ht
  rcases expTitles_interMetrics stock with h2 | h2 <;> rw [h2] at ht <;>
    simp at ht

lemma headChar_verdict (swot : SwotData) :
    headChar (sanitize_text ("Investment Verdict: " ++
      (swot.investment_verdict.getD ("N/A")) ++ "  |  Risk Rating: " ++
      (swot.risk_rating.getD ("N/A")))) = some 'I' := by
  apply headChar_sanitize _ _ (by decide)
  apply headChar_append_left
  apply headChar_append_left
  apply headChar_append_left
  rfl

lemma cellTexts_dfMetricsOps (stock : Option StockData) :
    cellTexts (dfMetricsOps stock) = ["Financial Metrics"] ∨
    cellTexts (dfMetricsOps stock) =
      ["Private Company - No public stock data available"] := by
  by_cases hp : stockPriceTruthy stock = true
  · cases stock with
    | none => simp [stockPriceTruthy] at hp
    | some sd =>
      left
      unfold dfMetricsOps
      rw [if_pos hp]
      simp only [cellTexts_append]
      rw [apply_ite cellTexts]
      simp [cellTexts]
  · right
    unfold dfMetricsOps
    rw [if_neg hp]
    simp [cellTexts]

lemma cellTexts_dfMarketOps (swot : SwotData) :
    cellTexts (dfMarketOps swot) = ["Market Analysis"] ∨
    cellTexts (dfMarketOps swot) = [] := by
  by_cases hm : swot.market_analysis.getD ("") = ""
  · right; simp [dfMarketOps, hm, cellTexts]
  · left; simp [dfMarketOps, hm, cellTexts]

lemma cellTexts_dfConsOps (swot : SwotData) :
    cellTexts (dfConsOps swot) = ["Investment Considerations"] ∨
    cellTexts (dfConsOps swot) = [] := by
  by_cases hm : swot.investment_considerations.getD ("") = ""
  · right; simp [dfConsOps, hm, cellTexts]
  · left; simp [dfConsOps, hm, cellTexts]

lemma cellTexts_dfRecsOps_empty (swot : SwotData)
    (h : swot.strategic_recommendations.getD [] = []) :
    cellTexts (dfRecsOps swot) = [] := by
  simp [dfRecsOps, h, cellTexts]

lemma strategic_cell_notin_body (swot : SwotData) (stock : Option StockData)
    (h : swot.strategic_recommendations.getD [] = []) :
    ("Strategic Recommendations" : String) ∉ cellTexts (dfBodyOps swot stock) := by
  intro hmem
  simp only [dfBodyOps, cellTexts_append, cellTexts_dfSwotSection,
    cellTexts_dfRecsOps_empty swot h, List.append_nil, List.nil_append] at hmem
  have hne : sanitize_text ("Investment Verdict: " ++
      (swot.investment_verdict.getD ("N/A")) ++ "  |  Risk Rating: " ++
      (swot.risk_rating.getD ("N/A"))) ≠ "Strategic Recommendations" :=
    ne_of_headChars _ ("Strategic Recommendations") 'I' 'S'
      (headChar_verdict swot) (by decide) (by decide)
  have hne2 := hne.symm
  rcases cellTexts_dfMetricsOps stock with hm | hm <;>
  rcases cellTexts_dfMarketOps swot with hma | hma <;>
  rcases cellTexts_dfConsOps swot with hco | hco <;>
    rw [hm, hma, hco] at hmem <;>
    simp only [cellTexts, List.filterMap_cons, cellKey_cell, cellKey_multiCell,
      cellKey_setFont, cellKey_setTextColor, cellKey_ln, List.filterMap_nil,
      List.mem_append, List.mem_cons, List.mem_singleton,
      List.not_mem_nil, or_false, false_or] at hmem <;>
    simp_all

lemma strategic_cell_notin_title (c : String) (stock : Option StockData) :
    ("Strategic Recommendations" : String) ∉ cellTexts (dfTitleOps c stock) := by
  intro hmem
  unfold dfTitleOps at hmem
  by_cases h : stockTickerTruthy stock = true
  · cases stock with
    | none => simp [stockTickerTruthy] at h
    | some sd =>
      rw [if_pos h] at hmem
      simp only [cellTexts, List.filterMap_append, List.filterMap_cons,
        cellKey_setFont, cellKey_cell, List.filterMap_nil, List.append_nil,
        List.nil_append, List.mem_append, List.mem_cons, List.mem_singleton,
        List.not_mem_nil, or_false, false_or] at hmem
      exact absurd hmem.symm (ne_of_headChars _ ("Strategic Recommendations") 'I' 'S'
        (by
          apply headChar_sanitize _ _ (by decide)
          apply headChar_append_left
          apply headChar_append_left
          apply headChar_append_left
          apply headChar_append_left
          decide)
        (by decide) (by decide))
  · rw [if_neg h] at hmem
    simp only [cellTexts, List.filterMap_append, List.filterMap_cons,
      cellKey_setFont, cellKey_cell, List.filterMap_nil, List.append_nil,
      List.nil_append, List.mem_append, List.mem_cons, List.mem_singleton,
      List.not_mem_nil, or_false, false_or] at hmem
    exact absurd hmem.symm (ne_of_headChars _ ("Strategic Recommendations") 'I' 'S'
      (by
        apply headChar_sanitize _ _ (by decide)
        apply headChar_append_left
        decide)
      (by decide) (by decide))

lemma strategic_cell_notin_pdf (c : String) (swot : SwotData)
    (stock : Option StockData) (today : String)
    (h : swot.strategic_recommendations.getD [] = []) :
    PdfOp.cell ("Strategic Recommendations") ∉ (save_pdf_df c swot stock today).1 := by
  intro hmem
  have ht : ("Strategic Recommendations" : String) ∈
      cellTexts (save_pdf_df c swot stock today).1 :=
    List.mem_filterMap.mpr ⟨_, hmem, rfl⟩
  have hgen : ("Generated: " ++ today) ≠ ("Strategic Recommendations" : String) :=
    ne_of_headChars _ ("Strategic Recommendations") 'G' 'S'
      (headChar_append_left _ _ _ (by decide)) (by decide) (by decide)
  rw [save_pdf_df] at ht
  simp only [cellTexts_append] at ht
  rcases List.mem_append.mp ht with ht1 | ht2
  · rcases List.mem_append.mp ht1 with ht3 | ht4
    · exact strategic_cell_notin_title c stock ht3
    · simp only [cellTexts, List.filterMap_cons, cellKey_cell,
        List.filterMap_nil, List.mem_singleton] at ht4
      exact hgen ht4.symm
  · exact strategic_cell_notin_body swot stock h ht2

lemma placeholder_in_render (c : String) (swot : SwotData)
    (stock : Option StockData) (ch : Except String (List ℚ)) (ph : String)
    (hgrid : Block.md ph ∈ interSwotGrid swot) :
    Block.md ph ∈ renderInteractive c swot stock ch := by
  simp [renderInteractive, List.mem_append, hgrid]

lemma strengths_cell_in_pdf (c : String) (swot : SwotData)
    (stock : Option StockData) (today : String) :
    PdfOp.cell ("Strengths") ∈ (save_pdf_df c swot stock today).1 := by
  have hsec : PdfOp.cell ("Strengths") ∈
      dfSwotSection ("Strengths") 34 139 34 (swot.strengths.getD []) := by
    simp [dfSwotSection]
  simp [save_pdf_df, dfBodyOps, List.mem_append, hsec]

lemma weaknesses_cell_in_pdf (c : String) (swot : SwotData)
    (stock : Option StockData) (today : String) :
    PdfOp.cell ("Weaknesses") ∈ (save_pdf_df c swot stock today).1 := by
  have hsec : PdfOp.cell ("Weaknesses") ∈
      dfSwotSection ("Weaknesses") 178 34 34 (swot.weaknesses.getD []) := by
    simp [dfSwotSection]
  simp [save_pdf_df, dfBodyOps, List.mem_append, hsec]

lemma opportunities_cell_in_pdf (c : String) (swot : SwotData)
    (stock : Option StockData) (today : String) :
    PdfOp.cell ("Opportunities") ∈ (save_pdf_df c swot stock today).1 := by
  have hsec : PdfOp.cell ("Opportunities") ∈
      dfSwotSection ("Opportunities") 30 144 255 (swot.opportunities.getD []) := by
    simp [dfSwotSection]
  simp [save_pdf_df, dfBodyOps, List.mem_append, hsec]

lemma threats_cell_in_pdf (c : String) (swot : SwotData)
    (stock : Option StockData) (today : String) :
    PdfOp.cell ("Threats") ∈ (save_pdf_df c swot stock today).1 := by
  have hsec : PdfOp.cell ("Threats") ∈
      dfSwotSection ("Threats") 255 140 0 (swot.threats.getD []) := by
    simp [dfSwotSection]
  simp [save_pdf_df, dfBodyOps, List.mem_append, hsec]

lemma dfSwotSection_empty (name : String) (r g b : Nat) :
    dfSwotSection name r g b [] =
      [.setFont ("Arial") ("B") 14, .setTextColor r g b, .cell name,
       .setTextColor 0 0 0, .setFont ("Arial") ("") 11, .ln 5] := rfl

/-- C5 (amended): neither renderer raises on absent optional keys (both
are total); for each of the four SWOT list fields the two renderers
cannot distinguish a key that is entirely absent from one present with an
empty list (the renderings are identical, not distinct); when
`strategic_recommendations` is absent or empty both renderers omit that
section; for each SWOT list field that is empty or absent the interactive
view shows its `No X listed` placeholder while the document section
reduces to exactly the colored header with no bullet lines; and the
document renderer emits all four SWOT section headers unconditionally
(it never skips the section). -/
theorem c5_renderers_optional_fields (c : String) (swot : SwotData)
    (stock : Option StockData) (ch : Except String (List ℚ)) (today : String) :
    (renderInteractive c { swot with strengths := some [] } stock ch =
       renderInteractive c { swot with strengths := none } stock ch ∧
     save_pdf_df c { swot with strengths := some [] } stock today =
       save_pdf_df c { swot with strengths := none } stock today) ∧
    (renderInteractive c { swot with weaknesses := some [] } stock ch =
       renderInteractive c { swot with weaknesses := none } stock ch ∧
     save_pdf_df c { swot with weaknesses := some [] } stock today =
       save_pdf_df c { swot with weaknesses := none } stock today) ∧
    (renderInteractive c { swot with opportunities := some [] } stock ch =
       renderInteractive c { swot with opportunities := none } stock ch ∧
     save_pdf_df c { swot with opportunities := some [] } stock today =
       save_pdf_df c { swot with opportunities := none } stock today) ∧
    (renderInteractive c { swot with threats := some [] } stock ch =
       renderInteractive c { swot with threats := none } stock ch ∧
     save_pdf_df c { swot with threats := some [] } stock today =
       save_pdf_df c { swot with threats := none } stock today) ∧
    (swot.strategic_recommendations.getD [] = [] →
      Block.expanderMarker ("Strategic Recommendations") ∉
        renderInteractive c swot stock ch ∧
      PdfOp.cell ("Strategic Recommendations") ∉
        (save_pdf_df c swot stock today).1) ∧
    (swot.strengths.getD [] = [] →
      Block.md ("*No strengths listed*") ∈ renderInteractive c swot stock ch ∧
      dfSwotSection ("Strengths") 34 139 34 (swot.strengths.getD []) =
        [.setFont ("Arial") ("B") 14, .setTextColor 34 139 34, .cell ("Strengths"),
         .setTextColor 0 0 0, .setFont ("Arial") ("") 11, .ln 5]) ∧
    (swot.weaknesses.getD [] = [] →
      Block.md ("*No weaknesses listed*") ∈ renderInteractive c swot stock ch ∧
      dfSwotSection ("Weaknesses") 178 34 34 (swot.weaknesses.getD []) =
        [.setFont ("Arial") ("B") 14, .setTextColor 178 34 34, .cell ("Weaknesses"),
         .setTextColor 0 0 0, .setFont ("Arial") ("") 11, .ln 5]) ∧
    (swot.opportunities.getD [] = [] →
      Block.md ("*No opportunities listed*") ∈ renderInteractive c swot stock ch ∧
      dfSwotSection ("Opportunities") 30 144 255 (swot.opportunities.getD []) =
        [.setFont ("Arial") ("B") 14, .setTextColor 30 144 255, .cell ("Opportunities"),
         .setTextColor 0 0 0, .setFont ("Arial") ("") 11, .ln 5]) ∧
    (swot.threats.getD [] = [] →
      Block.md ("*No threats listed*") ∈ renderInteractive c swot stock ch ∧
      dfSwotSection ("Threats") 255 140 0 (swot.threats.getD []) =
        [.setFont ("Arial") ("B") 14, .setTextColor 255 140 0, .cell ("Threats"),
         .setTextColor 0 0 0, .setFont ("Arial") ("") 11, .ln 5]) ∧
    (PdfOp.cell ("Strengths") ∈ (save_pdf_df c swot stock today).1 ∧
     PdfOp.cell ("Weaknesses") ∈ (save_pdf_df c swot stock today).1 ∧
     PdfOp.cell ("Opportunities") ∈ (save_pdf_df c swot stock today).1 ∧
     PdfOp.cell ("Threats") ∈ (save_pdf_df c swot stock today).1) := by
  refine ⟨⟨rfl, rfl⟩, ⟨rfl, rfl⟩, ⟨rfl, rfl⟩, ⟨rfl, rfl⟩,
    fun h => ⟨strategic_marker_notin c swot stock ch h,
      strategic_cell_notin_pdf c swot stock today h⟩,
    fun h => ⟨placeholder_in_render c swot stock ch _ (by
        simp [interSwotGrid, quadItems, h]),
      by rw [h]; exact dfSwotSection_empty _ _ _ _⟩,
    fun h => ⟨placeholder_in_render c swot stock ch _ (by
        simp [interSwotGrid, quadItems, h]),
      by rw [h]; exact dfSwotSection_empty _ _ _ _⟩,
    fun h => ⟨placeholder_in_render c swot stock ch _ (by
        simp [interSwotGrid, quadItems, h]),
      by rw [h]; exact dfSwotSection_empty _ _ _ _⟩,
    fun h => ⟨placeholder_in_render c swot stock ch _ (by
        simp [interSwotGrid, quadItems, h]),
      by rw [h]; exact dfSwotSection_empty _ _ _ _⟩,
    strengths_cell_in_pdf c swot stock today,
    weaknesses_cell_in_pdf c swot stock today,
    opportunities_cell_in_pdf c swot stock today,
    threats_cell_in_pdf c swot stock today⟩

/-- Analysis dict whose `strengths` key is present but empty, and whose
other optional keys are absent. -/
def swotC5 : SwotData := { strengths := some [], summary := some ("s") }

/-- The same dict with the `strengths` key entirely absent. -/
def swotC5b : SwotData := { strengths := none, summary := some ("s") }

/-- Witness for C5's amended theorem at a concrete input. -/
theorem c5_witness :
    Block.md ("*No strengths listed*") ∈
      renderInteractive ("Acme") swotC5 none (.error ("x")) ∧
    Block.md ("*No weaknesses listed*") ∈
      renderInteractive ("Acme") swotC5 none (.error ("x")) ∧
    PdfOp.cell ("Strategic Recommendations") ∉
      (save_pdf_df ("Acme") swotC5 none ("May 01, 2025")).1 :=
  ⟨((c5_renderers_optional_fields ("Acme") swotC5 none (.error ("x"))
      ("May 01, 2025")).2.2.2.2.2.1 rfl).1,
   ((c5_renderers_optional_fields ("Acme") swotC5 none (.error ("x"))
      ("May 01, 2025")).2.2.2.2.2.2.1 rfl).1,
   ((c5_renderers_optional_fields ("Acme") swotC5 none (.error ("x"))
      ("May 01, 2025")).2.2.2.2.1 rfl).2⟩

/-- Counterexample for C5 as stated: an empty-but-present `strengths`
list renders identically to an absent key in the interactive view (the
claim required them to be distinct), and the document renderer still
emits the `Strengths` header for the empty list (the claim said the
empty list field is skipped entirely). -/
theorem c5_counterexample :
    swotC5.strengths = some [] ∧ swotC5b.strengths = none ∧
    renderInteractive ("Acme") swotC5 none (.error ("x")) =
      renderInteractive ("Acme") swotC5b none (.error ("x")) ∧
    PdfOp.cell ("Strengths") ∈ (save_pdf_df ("Acme") swotC5 none ("May 01, 2025")).1 := by
  exact ⟨rfl, rfl, rfl, by decide⟩
